import Mathlib

/-!
Verification of the RAG ingestion-and-retrieval service (`src/api/app.py`,
`src/test_api_key.py`) against its natural-language specification.

The FastAPI handlers in `src/api/app.py` are embedded as pure Lean functions
over an explicit `AppState` record mirroring the module-level globals
(`vector_db`, `chat_model`, `youtube_vector_db`, `youtube_video_info`).
External collaborators (PDF loader, embedding provider, chat provider,
transcript fetcher) are passed in as explicit outcome parameters, and the
provider calls a handler makes are returned as an explicit effect list.

The `aimakerspace` library (CharacterTextSplitter, VectorDatabase, cosine
similarity) is imported by `app.py` but its source is not part of the
repository snapshot; those definitions are modelled from the specification
text, as marked in their doc comments.

Strings from the Python code are represented as `List Char` (written via
`String.data` of literals) so that all definitions compute.
-/

set_option maxRecDepth 100000

namespace RagSpec

/-- Text (Python `str`) represented as a list of characters. -/
abbrev Text := List Char

/-! ## Chunker -/

/-- Modelled from the spec: `CharacterTextSplitter.split` is not in `src/`;
§4.1 of the spec: produce consecutive windows of `chunk_size` characters,
the window start advancing by `chunk_size - overlap` each step
(Python: `for i in range(0, len(text), chunk_size - chunk_overlap):
chunks.append(text[i : i + chunk_size])`).  Generic in the element type. -/
def splitChunks (chunk_size chunk_overlap : ℕ) (text : List α) : List (List α) :=
  let step := chunk_size - chunk_overlap
  (List.range ((text.length + step - 1) / step)).map
    (fun i => (text.drop (i * step)).take chunk_size)

/-- Modelled from the spec: `CharacterTextSplitter.split_texts` splits each
document in order and concatenates the chunk lists. -/
def split_texts (chunk_size chunk_overlap : ℕ) (docs : List (List α)) : List (List α) :=
  (docs.map (splitChunks chunk_size chunk_overlap)).flatten

/-! ## Vector index -/

/-- An embedding: a vector of rational coordinates. -/
abbrev Emb := List ℚ

/-- Dot product of two embeddings (`np.dot`). -/
def dot (a b : Emb) : ℚ := (List.zipWith (· * ·) a b).sum

/-- Squared magnitude of an embedding. -/
def magSq (a : Emb) : ℚ := dot a a

/-- Modelled from the spec: the similarity measure of the vector index
(`aimakerspace` is not in `src/`).  Spec §4.2: cosine similarity is the dot
product divided by the product of the magnitudes, and "a stored embedding
with zero magnitude participates with similarity defined as 0 rather than
raising a division fault".  Since the square root of a rational is in
general irrational, the score is represented through the strictly
increasing map x ↦ x·|x| of the spec's cosine, giving the rational value
(dot·|dot|)/(magSq·magSq); this preserves the ranking order of scores and
is 0 exactly when the spec's cosine similarity is 0.  The zero-magnitude
guard of the spec is the first branch. -/
def cosine_similarity (a b : Emb) : ℚ :=
  if magSq a * magSq b = 0 then 0
  else (dot a b * |dot a b|) / (magSq a * magSq b)

/-- Modelled from the spec: the vector index stores (chunk, embedding)
pairs in insertion order; duplicate chunk text is a legal, distinct
entry (spec §3). -/
structure VectorDatabase where
  entries : List (Text × Emb)
deriving DecidableEq

/-- Every stored entry scored against a query embedding, paired with its
insertion index: `(chunk, score, index)`. -/
def indexedScores (db : VectorDatabase) (q : Emb) (measure : Emb → Emb → ℚ) :
    List (Text × ℚ × ℕ) :=
  db.entries.enum.map (fun p => (p.2.1, measure q p.2.2, p.1))

/-- Retrieval order: higher score first; on equal scores the earlier
inserted entry first (spec §4.2: "ties broken by insertion order"). -/
def searchRel (a b : Text × ℚ × ℕ) : Prop :=
  b.2.1 < a.2.1 ∨ (a.2.1 = b.2.1 ∧ a.2.2 ≤ b.2.2)

instance : DecidableRel searchRel := fun a b => by
  unfold searchRel; infer_instance

instance : IsTotal (Text × ℚ × ℕ) searchRel where
  total a b := by
    rcases lt_trichotomy a.2.1 b.2.1 with h | h | h
    · exact Or.inr (Or.inl h)
    · rcases le_total a.2.2 b.2.2 with h2 | h2
      · exact Or.inl (Or.inr ⟨h, h2⟩)
      · exact Or.inr (Or.inr ⟨h.symm, h2⟩)
    · exact Or.inl (Or.inl h)

instance : IsTrans (Text × ℚ × ℕ) searchRel where
  trans a b c hab hbc := by
    rcases hab with h1 | ⟨e1, i1⟩
    · rcases hbc with h2 | ⟨e2, _⟩
      · exact Or.inl (h2.trans h1)
      · exact Or.inl (e2 ▸ h1)
    · rcases hbc with h2 | ⟨e2, i2⟩
      · exact Or.inl (h2.trans_eq e1.symm)
      · exact Or.inr ⟨e1.trans e2, i1.trans i2⟩

/-- The fully sorted scored entries (before truncation to `k`). -/
def search_indexed (db : VectorDatabase) (q : Emb) (measure : Emb → Emb → ℚ) :
    List (Text × ℚ × ℕ) :=
  (indexedScores db q measure).insertionSort searchRel

/-- Modelled from the spec: `VectorDatabase.search` scores every stored
entry against the query embedding, sorts descending by score (stable on
ties by insertion order) and returns the first `k` as (chunk, score)
pairs.  The measure is a parameter, as in the Python signature
`search(self, query_vector, k, distance_measure=cosine_similarity)`. -/
def VectorDatabase.search (db : VectorDatabase) (q : Emb) (k : ℕ)
    (measure : Emb → Emb → ℚ) : List (Text × ℚ) :=
  ((search_indexed db q measure).take k).map (fun x => (x.1, x.2.1))

/-- Modelled from the spec: `search_by_text(..., return_as_text=True)`
embeds the query text with the provider and returns only the chunk
texts. -/
def VectorDatabase.search_by_text (db : VectorDatabase) (embed : Text → Emb)
    (query_text : Text) (k : ℕ) : List Text :=
  (db.search (embed query_text) k cosine_similarity).map Prod.fst

/-! ## Application state and handlers (`src/api/app.py`) -/

/-- YouTube video metadata: the fields the handlers read and write. -/
structure VideoInfo where
  title : Text
  author : Text
  video_id : Text
  url : Text
deriving DecidableEq

/-- The module-level globals of `app.py` (lines 40-45): `vector_db`,
`chat_model` (only its None-ness is ever inspected, so it is a Bool),
`youtube_vector_db`, `youtube_video_info`. -/
structure AppState where
  vector_db : Option VectorDatabase
  chat_model : Bool
  youtube_vector_db : Option VectorDatabase
  youtube_video_info : Option VideoInfo
deriving DecidableEq

deriving instance DecidableEq for Except

/-- An HTTP error response: status code and detail text. -/
structure HErr where
  status : ℕ
  detail : Text
deriving DecidableEq

/-- A call to an external provider, recorded as an effect. -/
inductive ProviderCall
  | embed
  | generate
deriving DecidableEq

/-- `if not api_key or api_key == "test_key"` (app.py lines 231, 293, 336,
495): the key is missing, empty, or the placeholder. -/
def apiKeyBad : Option Text → Bool
  | none => true
  | some k => k.isEmpty || k == "test_key".data

/-- The detail of the not-configured-key error (shared by all handlers). -/
def keyErrDetail : Text :=
  ("OpenAI API key not configured. Please set OPENAI_API_KEY environment variable with your actual API key from https://platform.openai.com/account/api-keys").data

/-- Outcome of `VectorDatabase.abuild_from_list`: the embedding the
provider returns for each chunk, and whether the build raises after
inserting `j` entries (`failAt = some j`) or completes (`failAt =
none`). -/
structure BuildOutcome where
  embed : Text → Emb
  failAt : Option ℕ

/-- `upload_pdf` (app.py lines 221-276).  `loadResult` is the outcome of
`PDFLoader.load_file` (error = raised exception, ok = extracted document
texts); `bo` is the embedding-build outcome.  Returns the handler result
(message, chunks_count) and the new global state.  Mirrors the source
order: the filename and API-key checks precede any state change;
`chat_model` is (re)initialised before the PDF is loaded (line 241); the
fresh `VectorDatabase` is assigned to the global `vector_db` BEFORE
`abuild_from_list` runs (lines 262-263), so a failing build leaves the
global pointing at the new, partially filled database. -/
def upload_pdf (st : AppState) (apiKey : Option Text) (filenameIsPdf : Bool)
    (loadResult : Except Text (List Text)) (bo : BuildOutcome) :
    Except HErr (Text × ℕ) × AppState :=
  if !filenameIsPdf then (.error ⟨400, "File must be a PDF".data⟩, st)
  else if apiKeyBad apiKey then (.error ⟨500, keyErrDetail⟩, st)
  else
    let st1 := { st with chat_model := true }
    match loadResult with
    | .error e => (.error ⟨500, "Error processing PDF: ".data ++ e⟩, st1)
    | .ok docs =>
      if docs.isEmpty then
        (.error ⟨500, "Error processing PDF: 400: No text found in PDF".data⟩, st1)
      else
        let chunks := split_texts 1000 200 docs
        match bo.failAt with
        | some j =>
          (.error ⟨500, "Error processing PDF: embedding failed".data⟩,
           { st1 with vector_db := some ⟨(chunks.take j).map (fun c => (c, bo.embed c))⟩ })
        | none =>
          (.ok ("PDF uploaded and indexed successfully".data, chunks.length),
           { st1 with vector_db := some ⟨chunks.map (fun c => (c, bo.embed c))⟩ })

/-- `pdf_chat` (app.py lines 279-326).  Returns the retrieved context
chunks (the streamed answer is produced by the chat provider from them)
together with the list of provider calls the handler makes. -/
def pdf_chat (st : AppState) (apiKey : Option Text) (msg : Text)
    (embed : Text → Emb) : Except HErr (List Text) × List ProviderCall :=
  match st.vector_db with
  | none => (.error ⟨400, "No PDF uploaded. Please upload a PDF first.".data⟩, [])
  | some db =>
    if !st.chat_model then (.error ⟨500, "Chat model not initialized".data⟩, [])
    else if apiKeyBad apiKey then (.error ⟨500, keyErrDetail⟩, [])
    else (.ok (db.search_by_text embed msg 3), [.embed, .generate])

/-- `youtube_chat` (app.py lines 481-535): returns the retrieved context
plus the video title/author used in the grounding prompt, and the
provider calls made. -/
def youtube_chat (st : AppState) (apiKey : Option Text) (msg : Text)
    (embed : Text → Emb) :
    Except HErr (List Text × Text × Text) × List ProviderCall :=
  match st.youtube_vector_db with
  | none =>
    (.error ⟨400, "No YouTube video processed. Please process a YouTube video first.".data⟩, [])
  | some db =>
    if !st.chat_model then (.error ⟨500, "Chat model not initialized".data⟩, [])
    else if apiKeyBad apiKey then (.error ⟨500, keyErrDetail⟩, [])
    else
      let title := match st.youtube_video_info with
        | some info => info.title
        | none => "Unknown Video".data
      let author := match st.youtube_video_info with
        | some info => info.author
        | none => "Unknown Author".data
      (.ok (db.search_by_text embed msg 3, title, author), [.embed, .generate])

/-- `pdf_status` (app.py lines 548-554): readiness flag and chunk count. -/
def pdf_status (st : AppState) : Bool × ℕ :=
  match st.vector_db with
  | none => (false, 0)
  | some db => (true, db.entries.length)

/-- `youtube_status` (app.py lines 538-545). -/
def youtube_status (st : AppState) : Bool × ℕ × Option VideoInfo :=
  match st.youtube_vector_db with
  | none => (false, 0, st.youtube_video_info)
  | some db => (true, db.entries.length, st.youtube_video_info)

/-- `reset_pdf` (app.py lines 557-563): clears `vector_db` AND the shared
`chat_model`, and returns a success message unconditionally. -/
def reset_pdf (st : AppState) : Text × AppState :=
  ("PDF state reset successfully".data,
   { st with vector_db := none, chat_model := false })

/-- `reset_youtube` (app.py lines 566-573): clears the YouTube globals but
deliberately leaves `chat_model` untouched (source comment: "We don't
reset chat_model here as it might be used by PDF functionality"). -/
def reset_youtube (st : AppState) : Text × AppState :=
  ("YouTube state reset successfully".data,
   { st with youtube_vector_db := none, youtube_video_info := none })

/-! ## YouTube URL parsing (`extract_video_id`, app.py lines 106-118) -/

/-- The regex character class `[a-zA-Z0-9_-]`. -/
def vidChar (c : Char) : Bool :=
  c.isAlpha || c.isDigit || c == '_' || c == '-'

/-- Match `[a-zA-Z0-9_-]{11}` at the head of `s`: exactly 11 class
characters, whatever follows. -/
def take11 (s : Text) : Option Text :=
  if (s.take 11).length == 11 && (s.take 11).all vidChar then some (s.take 11) else none

/-- One alternative of the first pattern: the literal `pre` at the current
position, immediately followed by 11 id characters. -/
def tryAlt (pre s : Text) : Option Text :=
  if pre.isPrefixOf s then take11 (s.drop pre.length) else none

/-- Try the first pattern
`(?:youtube\.com/watch\?v=|youtu\.be/|youtube\.com/embed/)([a-zA-Z0-9_-]{11})`
at the current position, the alternatives in the order the regex engine
tries them. -/
def tryP1At (s : Text) : Option Text :=
  match tryAlt "youtube.com/watch?v=".data s with
  | some v => some v
  | none =>
    match tryAlt "youtu.be/".data s with
    | some v => some v
    | none => tryAlt "youtube.com/embed/".data s

/-- `re.search` semantics: try the pattern matcher `f` at every position,
left to right, returning the first (leftmost) match. -/
def scanFind (f : Text → Option Text) : Text → Option Text
  | [] => f []
  | c :: s =>
    match f (c :: s) with
    | some r => some r
    | none => scanFind f s

/-- Match `v=([a-zA-Z0-9_-]{11})` at the current position: the two literal
characters, then the id. -/
def vEqAt (s : Text) : Option Text :=
  if s.take 2 = ['v', '='] then take11 (s.drop 2) else none

/-- Greedy `.*v=([a-zA-Z0-9_-]{11})`: the regex engine backtracks a greedy
`.*` from the end, so the RIGHTMOST occurrence of `v=` followed by 11 id
characters wins (preference for the recursive result on the tail). -/
def greedyVEq : Text → Option Text
  | [] => none
  | c :: s =>
    match greedyVEq s with
    | some r => some r
    | none => vEqAt (c :: s)

/-- Try the second pattern `youtube\.com/watch\?.*v=([a-zA-Z0-9_-]{11})`
at the current position: the literal prefix, then a gap `.` cannot cross a
newline, then `v=` and the id.  Since none of the characters matched by
`v=` or the class can be a newline, restricting the search to the segment
before the first newline is exactly the regex semantics. -/
def tryP2At (s : Text) : Option Text :=
  if ("youtube.com/watch?".data).isPrefixOf s then
    greedyVEq ((s.drop 18).takeWhile (fun c => c != '\n'))
  else none

/-- `extract_video_id` (app.py lines 106-118): `re.search` the first
pattern anywhere in the URL, then the second; if neither matches, raise
`ValueError("Invalid YouTube URL format")`. -/
def extract_video_id (url : Text) : Except Text Text :=
  match scanFind tryP1At url with
  | some vid => .ok vid
  | none =>
    match scanFind tryP2At url with
    | some vid => .ok vid
    | none => .error "Invalid YouTube URL format".data

/-- The URL fragments a returned video id is extracted right after: the
three literal alternatives of the first pattern, and the `v=` of the
second. -/
def recognizedPrefixes : List Text :=
  ["youtube.com/watch?v=".data, "youtu.be/".data, "youtube.com/embed/".data, "v=".data]

/-- When transcript acquisition fails, app.py line 357 calls
`get_demo_transcript_for_video(video_id)` — a function defined nowhere in
the repository.  Python resolves names at call time, so the fallback
itself raises `NameError`, which the generic handler at lines 426-429
converts into a 500 whose detail is the NameError text (the missing
helper), not the transcript failure. -/
def nameErrorDetail : Text :=
  ("Error processing YouTube video: NameError: name get_demo_transcript_for_video is not defined").data

/-- `process_youtube` (app.py lines 329-429).  `transcriptRes` is the
outcome of `get_youtube_transcript`; `meta` is the dictionary
`get_youtube_metadata` produces (that helper never raises: it has
internal fallbacks); `bo` is the embedding-build outcome; `summaryRes`
is the outcome of the summary-generation call.  Mirrors the source
order: key check before any state change; `chat_model` initialised
first (line 345); on transcript failure the undefined demo-transcript
helper raises before the metadata global is touched; the fresh
`VectorDatabase` is assigned to the global `youtube_vector_db` BEFORE
`abuild_from_list` runs (lines 385-386). -/
def process_youtube (st : AppState) (apiKey : Option Text) (url : Text)
    (transcriptRes : Except Text Text) (meta : VideoInfo)
    (bo : BuildOutcome) (summaryRes : Except Text Text) :
    Except HErr (Text × ℕ × Text) × AppState :=
  if apiKeyBad apiKey then (.error ⟨500, keyErrDetail⟩, st)
  else
    let st1 := { st with chat_model := true }
    match extract_video_id url with
    | .error ve => (.error ⟨400, ve⟩, st1)
    | .ok vid =>
      match transcriptRes with
      | .error _ => (.error ⟨500, nameErrorDetail⟩, st1)
      | .ok transcript =>
        let info := { meta with video_id := vid, url := url }
        let st2 := { st1 with youtube_video_info := some info }
        if transcript.all (fun c => c.isWhitespace) then
          (.error ⟨500, "Error processing YouTube video: 400: No transcript available for this video".data⟩, st2)
        else
          let chunks := split_texts 1000 200 [transcript]
          match bo.failAt with
          | some j =>
            (.error ⟨500, "Error processing YouTube video: embedding failed".data⟩,
             { st2 with youtube_vector_db := some ⟨(chunks.take j).map (fun c => (c, bo.embed c))⟩ })
          | none =>
            let db : VectorDatabase := ⟨chunks.map (fun c => (c, bo.embed c))⟩
            let st3 := { st2 with youtube_vector_db := some db }
            match summaryRes with
            | .error e => (.error ⟨500, "Error processing YouTube video: ".data ++ e⟩, st3)
            | .ok summary =>
              (.ok ("YouTube video processed and indexed successfully".data, chunks.length, summary), st3)

/-! ## `src/test_api_key.py` -/

/-- Outcome of running `test_api_key`: its return value, whether an OpenAI
client was constructed, and whether a provider call was issued. -/
structure KeyTestOutcome where
  result : Bool
  clientConstructed : Bool
  providerCalled : Bool
deriving DecidableEq

/-- `test_api_key` (src/test_api_key.py lines 10-54).  `env` is
`os.getenv("OPENAI_API_KEY")` (`none` = unset; Python treats both `None`
and the empty string as falsy); `callOk` tells whether the test completion
the script issues succeeds (on an exception the function prints and
returns False).  The three early returns reject a missing/empty key, the
two placeholder values, and a key that does not start with "sk-", all
before the client is constructed. -/
def test_api_key (env : Option Text) (callOk : Bool) : KeyTestOutcome :=
  match env with
  | none => ⟨false, false, false⟩
  | some k =>
    if k.isEmpty then ⟨false, false, false⟩
    else if k == "test_key".data || k == "your_openai_api_key_here".data then
      ⟨false, false, false⟩
    else if !("sk-".data.isPrefixOf k) then ⟨false, false, false⟩
    else ⟨callOk, true, true⟩

/-! ## Concrete fixtures used in witnesses and counterexamples -/

/-- A one-entry index. -/
def db1 : VectorDatabase := ⟨[("hello".data, [1])]⟩

/-- An empty index. -/
def dbEmpty : VectorDatabase := ⟨[]⟩

/-- A prior READY PDF index with two chunks. -/
def dbPrior : VectorDatabase :=
  ⟨[("old chunk one".data, [1]), ("old chunk two".data, [2])]⟩

/-- A state whose PDF corpus is READY with `dbPrior`. -/
def stReady : AppState := ⟨some dbPrior, true, none, none⟩

/-- A one-entry video index. -/
def dbY : VectorDatabase := ⟨[("video chunk".data, [1])]⟩

/-- Concrete video metadata. -/
def infoY : VideoInfo := ⟨"Title".data, "Author".data, "vid".data, "u".data⟩

/-- A state whose video corpus is READY and whose chat model is
initialised (as after a successful `process_youtube`). -/
def stVideo : AppState := ⟨none, true, some dbY, some infoY⟩

/-- The initial state: everything absent. -/
def stEmpty : AppState := ⟨none, false, none, none⟩

/-- A build in which the provider embeds every chunk as `[1]` and the
build completes. -/
def boOk : BuildOutcome := ⟨fun _ => [1], none⟩

/-- A build that fails before any chunk is inserted. -/
def boFail0 : BuildOutcome := ⟨fun _ => [1], some 0⟩

/-! ## Chunker lemmas -/

/-- On any 2200-character document, the 1000/200 splitter used by the
ingestion endpoints produces exactly the three windows starting at offsets
0, 800 and 1600. -/
theorem splitChunks_2200 (t : List α) (h : t.length = 2200) :
    splitChunks 1000 200 t = [t.take 1000, (t.drop 800).take 1000, (t.drop 1600).take 1000] := by
  simp only [splitChunks, h]
  norm_num
  rfl

/-- Window lengths for the 2200-character document: 1000, 1000, 600. -/
theorem splitChunks_2200_lengths (t : List α) (h : t.length = 2200) :
    (splitChunks 1000 200 t).map List.length = [1000, 1000, 600] := by
  rw [splitChunks_2200 t h]
  simp [List.length_take, List.length_drop, h]

/-- Splitting a single document is splitting the document. -/
theorem split_texts_singleton (c o : ℕ) (t : List α) :
    split_texts c o [t] = splitChunks c o t := by
  simp [split_texts]

/-! ## Search lemmas -/

theorem length_indexedScores (db : VectorDatabase) (q : Emb) (measure : Emb → Emb → ℚ) :
    (indexedScores db q measure).length = db.entries.length := by
  simp [indexedScores]

/-- The sorted scored list is a permutation of the scored entries. -/
theorem search_indexed_perm (db : VectorDatabase) (q : Emb) (measure : Emb → Emb → ℚ) :
    List.Perm (search_indexed db q measure) (indexedScores db q measure) :=
  List.perm_insertionSort searchRel (indexedScores db q measure)

theorem length_search_indexed (db : VectorDatabase) (q : Emb) (measure : Emb → Emb → ℚ) :
    (search_indexed db q measure).length = db.entries.length := by
  rw [(search_indexed_perm db q measure).length_eq, length_indexedScores]

/-- `search` returns `min k n` results. -/
theorem search_length (db : VectorDatabase) (q : Emb) (k : ℕ) (measure : Emb → Emb → ℚ) :
    (db.search q k measure).length = min k db.entries.length := by
  simp [VectorDatabase.search, List.length_take, length_search_indexed]

/-- The sorted scored list is sorted for the retrieval order. -/
theorem search_indexed_sorted (db : VectorDatabase) (q : Emb) (measure : Emb → Emb → ℚ) :
    List.Pairwise searchRel (search_indexed db q measure) :=
  List.sorted_insertionSort searchRel (indexedScores db q measure)

/-- The insertion indices attached by `indexedScores` are `0, 1, 2, …`. -/
theorem indexedScores_map_idx (db : VectorDatabase) (q : Emb) (measure : Emb → Emb → ℚ) :
    (indexedScores db q measure).map (fun x => x.2.2) = List.range db.entries.length := by
  simp only [indexedScores, List.map_map]
  have : ((fun x => x.2.2) ∘ fun p : ℕ × (Text × Emb) => (p.2.1, measure q p.2.2, p.1))
      = Prod.fst := rfl
  rw [this, List.enum_map_fst]

/-- Distinct entries carry distinct insertion indices, also after
sorting. -/
theorem search_indexed_idx_nodup (db : VectorDatabase) (q : Emb) (measure : Emb → Emb → ℚ) :
    List.Pairwise (fun a b : Text × ℚ × ℕ => a.2.2 ≠ b.2.2) (search_indexed db q measure) := by
  have h1 : ((indexedScores db q measure).map (fun x => x.2.2)).Nodup := by
    rw [indexedScores_map_idx]; exact List.nodup_range _
  have h2 : ((search_indexed db q measure).map (fun x => x.2.2)).Nodup :=
    ((search_indexed_perm db q measure).map (fun x => x.2.2)).symm.nodup h1
  exact (List.pairwise_map).mp h2

/-- Sortedness in the strict form of the specification: descending score,
and on equal scores strictly increasing insertion index (earliest
first). -/
theorem search_indexed_sorted_strict (db : VectorDatabase) (q : Emb) (measure : Emb → Emb → ℚ) :
    List.Pairwise (fun a b : Text × ℚ × ℕ =>
        b.2.1 < a.2.1 ∨ (a.2.1 = b.2.1 ∧ a.2.2 < b.2.2))
      (search_indexed db q measure) := by
  refine ((search_indexed_sorted db q measure).and
      (search_indexed_idx_nodup db q measure)).imp ?_
  rintro a b ⟨hr | ⟨he, hi⟩, hne⟩
  · exact Or.inl hr
  · exact Or.inr ⟨he, lt_of_le_of_ne hi hne⟩

/-! ## Claims -/

/-- C5: for every index of `n` entries and every `k`, `search k` returns
exactly `min k n` results; in particular `k ≥ n` returns all `n` entries
and the empty index yields the empty sequence, not an error.  The results
are the first `k` of the scored entries sorted by strictly descending
score with ties broken by strictly increasing insertion index
(earliest-inserted first), for any similarity measure — the measure is a
parameter of `search`, as in the source. -/
theorem C5_search_contract (db : VectorDatabase) (q : Emb) (k : ℕ)
    (measure : Emb → Emb → ℚ) :
    (db.search q k measure).length = min k db.entries.length
    ∧ (db.entries.length ≤ k → (db.search q k measure).length = db.entries.length)
    ∧ (db.entries = [] → db.search q k measure = [])
    ∧ db.search q k measure
        = ((search_indexed db q measure).take k).map (fun x => (x.1, x.2.1))
    ∧ List.Perm (search_indexed db q measure) (indexedScores db q measure)
    ∧ List.Pairwise (fun a b : Text × ℚ × ℕ =>
        b.2.1 < a.2.1 ∨ (a.2.1 = b.2.1 ∧ a.2.2 < b.2.2))
      (search_indexed db q measure) := by
  refine ⟨search_length db q k measure, ?_, ?_, rfl,
    search_indexed_perm db q measure, search_indexed_sorted_strict db q measure⟩
  · intro h
    rw [search_length db q k measure, min_eq_right h]
  · intro h
    have hl : (db.search q k measure).length = 0 := by
      rw [search_length db q k measure, h]; simp
    exact List.length_eq_zero.mp hl

/-- C5 witness: a one-entry index searched with `k = 2` returns
`min 2 1 = 1` result, and the empty index returns `[]`. -/
theorem C5_search_contract_witness :
    (db1.search [1] 2 cosine_similarity).length = min 2 1
    ∧ dbEmpty.search [1] 5 cosine_similarity = [] :=
  ⟨(C5_search_contract db1 [1] 2 cosine_similarity).1,
   (C5_search_contract dbEmpty [1] 5 cosine_similarity).2.2.1 rfl⟩

/-- C7: a stored embedding of zero magnitude participates in search with
similarity 0 (the zero-magnitude guard) instead of a division fault, and
search over an index containing such an entry still returns its full
`min k n` results. -/
theorem C7_zero_magnitude (q v : Emb) (h : magSq v = 0) :
    cosine_similarity q v = 0
    ∧ ∀ (db : VectorDatabase) (k : ℕ),
        (db.search q k cosine_similarity).length = min k db.entries.length := by
  constructor
  · unfold cosine_similarity
    rw [h, mul_zero, if_pos rfl]
  · intro db k
    exact search_length db q k cosine_similarity

/-- C7 witness at the zero vector `[0, 0]` against query `[1, 2]`. -/
theorem C7_zero_magnitude_witness :
    cosine_similarity [1, 2] [0, 0] = 0
    ∧ ∀ (db : VectorDatabase) (k : ℕ),
        (db.search [1, 2] k cosine_similarity).length = min k db.entries.length :=
  C7_zero_magnitude [1, 2] [0, 0] (by norm_num [magSq, dot])

/-- C3 counterexample: splitting a 2200-character document with
`chunk_size = 1000, overlap = 200` does NOT produce chunks of lengths
1000, 1000, 200 — the window starting at offset 1600 extends to the end
of the document, so the third chunk has length 600. -/
theorem C3_counterexample :
    (split_texts 1000 200 [List.range 2200]).map List.length ≠ [1000, 1000, 200] := by
  rw [split_texts_singleton, splitChunks_2200_lengths (List.range 2200) (by simp)]
  decide

/-- C3 amended: splitting a single 2200-character document with
`chunk_size = 1000, overlap = 200` produces exactly three chunks, taken at
start offsets 0, 800, 1600, of lengths 1000, 1000 and 600. -/
theorem C3_amended (t : List α) (h : t.length = 2200) :
    split_texts 1000 200 [t]
      = [t.take 1000, (t.drop 800).take 1000, (t.drop 1600).take 1000]
    ∧ (split_texts 1000 200 [t]).map List.length = [1000, 1000, 600] := by
  rw [split_texts_singleton]
  exact ⟨splitChunks_2200 t h, splitChunks_2200_lengths t h⟩

/-- C3 witness at the concrete 2200-character document `0, 1, …, 2199`. -/
theorem C3_amended_witness :
    split_texts 1000 200 [List.range 2200]
      = [(List.range 2200).take 1000, ((List.range 2200).drop 800).take 1000,
         ((List.range 2200).drop 1600).take 1000]
    ∧ (split_texts 1000 200 [List.range 2200]).map List.length = [1000, 1000, 600] :=
  C3_amended (List.range 2200) (by simp)

/-- C8: resetting an `ABSENT` corpus succeeds with the usual success
message and leaves the corpus `ABSENT`; both resets are idempotent on the
state. -/
theorem C8_reset_absent (st : AppState) :
    (st.vector_db = none →
        (reset_pdf st).1 = "PDF state reset successfully".data
        ∧ ((reset_pdf st).2).vector_db = none)
    ∧ (st.youtube_vector_db = none →
        (reset_youtube st).1 = "YouTube state reset successfully".data
        ∧ ((reset_youtube st).2).youtube_vector_db = none)
    ∧ (reset_pdf (reset_pdf st).2).2 = (reset_pdf st).2
    ∧ (reset_youtube (reset_youtube st).2).2 = (reset_youtube st).2 := by
  refine ⟨fun _ => ⟨rfl, rfl⟩, fun _ => ⟨rfl, rfl⟩, rfl, rfl⟩

/-- C8 witness at the all-absent initial state. -/
theorem C8_reset_absent_witness :
    ((reset_pdf stEmpty).1 = "PDF state reset successfully".data
      ∧ ((reset_pdf stEmpty).2).vector_db = none)
    ∧ ((reset_youtube stEmpty).1 = "YouTube state reset successfully".data
      ∧ ((reset_youtube stEmpty).2).youtube_vector_db = none) :=
  ⟨(C8_reset_absent stEmpty).1 rfl, (C8_reset_absent stEmpty).2.1 rfl⟩

/-- C4: a query against an `ABSENT` corpus is rejected up front with the
corresponding not-ready 400, and the handler makes no provider call (the
effect list is empty). -/
theorem C4_absent_query_rejected (st : AppState) (apiKey : Option Text)
    (msg : Text) (embed : Text → Emb) :
    (st.vector_db = none →
        pdf_chat st apiKey msg embed
          = (.error ⟨400, "No PDF uploaded. Please upload a PDF first.".data⟩, []))
    ∧ (st.youtube_vector_db = none →
        youtube_chat st apiKey msg embed
          = (.error ⟨400,
              "No YouTube video processed. Please process a YouTube video first.".data⟩, [])) := by
  constructor
  · intro h; simp [pdf_chat, h]
  · intro h; simp [youtube_chat, h]

/-- C4 witness at the all-absent initial state. -/
theorem C4_absent_query_rejected_witness :
    pdf_chat stEmpty (some "sk-live".data) "q".data (fun _ => [1])
      = (.error ⟨400, "No PDF uploaded. Please upload a PDF first.".data⟩, [])
    ∧ youtube_chat stEmpty (some "sk-live".data) "q".data (fun _ => [1])
      = (.error ⟨400,
          "No YouTube video processed. Please process a YouTube video first.".data⟩, []) :=
  ⟨(C4_absent_query_rejected stEmpty (some "sk-live".data) "q".data (fun _ => [1])).1 rfl,
   (C4_absent_query_rejected stEmpty (some "sk-live".data) "q".data (fun _ => [1])).2 rfl⟩

/-- C10: with `OPENAI_API_KEY` unset, equal to a placeholder, or not
starting with "sk-", `test_api_key` returns False without constructing a
client or calling the provider. -/
theorem C10_bad_key_rejected (env : Option Text) (callOk : Bool)
    (h : env = none ∨ ∃ k, env = some k
        ∧ (k = "test_key".data ∨ k = "your_openai_api_key_here".data
            ∨ "sk-".data.isPrefixOf k = false)) :
    test_api_key env callOk = ⟨false, false, false⟩ := by
  rcases h with rfl | ⟨k, rfl, hk⟩
  · rfl
  · rcases hk with rfl | rfl | hk
    · rfl
    · rfl
    · simp only [test_api_key]
      split_ifs with h1 h2 h3
      · rfl
      · rfl
      · rfl
      · rw [hk] at h3; exact absurd rfl h3

/-- C10 witness at the placeholder key "test_key". -/
theorem C10_bad_key_rejected_witness :
    test_api_key (some "test_key".data) true = ⟨false, false, false⟩ :=
  C10_bad_key_rejected (some "test_key".data) true (Or.inr ⟨_, rfl, Or.inl rfl⟩)

/-! ## URL-parsing soundness (for C9) -/

theorem take11_sound {s v : Text} (h : take11 s = some v) :
    v.length = 11 ∧ v.all vidChar = true ∧ v <+: s := by
  by_cases hc : ((s.take 11).length == 11 && (s.take 11).all vidChar) = true
  · unfold take11 at h
    rw [if_pos hc] at h
    obtain rfl : s.take 11 = v := Option.some.inj h
    simp only [Bool.and_eq_true, beq_iff_eq] at hc
    exact ⟨hc.1, hc.2, List.take_prefix 11 s⟩
  · unfold take11 at h
    rw [if_neg hc] at h
    exact absurd h (by simp)

/-- A prefix of what remains after stripping a literal prefix lifts to a
prefix of the whole. -/
theorem prefix_append_of_prefix_drop {pre s v : Text} (hp : pre.isPrefixOf s = true)
    (hv : v <+: s.drop pre.length) : (pre ++ v) <+: s := by
  obtain ⟨t, rfl⟩ := List.isPrefixOf_iff_prefix.mp hp
  rw [List.drop_left] at hv
  obtain ⟨u, rfl⟩ := hv
  exact ⟨u, by simp⟩

theorem tryAlt_sound {pre s v : Text} (h : tryAlt pre s = some v) :
    v.length = 11 ∧ v.all vidChar = true ∧ (pre ++ v) <+: s := by
  by_cases hp : pre.isPrefixOf s = true
  · unfold tryAlt at h
    rw [if_pos hp] at h
    obtain ⟨h1, h2, h3⟩ := take11_sound h
    exact ⟨h1, h2, prefix_append_of_prefix_drop hp h3⟩
  · unfold tryAlt at h
    rw [if_neg hp] at h
    exact absurd h (by simp)

/-- Any id the first pattern yields sits right after one of its three
literal alternatives. -/
theorem tryP1At_sound {s v : Text} (h : tryP1At s = some v) :
    v.length = 11 ∧ v.all vidChar = true
    ∧ ∃ pre, pre ∈ recognizedPrefixes ∧ (pre ++ v) <+: s := by
  unfold tryP1At at h
  cases h1 : tryAlt "youtube.com/watch?v=".data s with
  | some r =>
    rw [h1] at h
    obtain rfl := Option.some.inj h
    obtain ⟨a, b, c⟩ := tryAlt_sound h1
    exact ⟨a, b, _, by simp [recognizedPrefixes], c⟩
  | none =>
    rw [h1] at h
    cases h2 : tryAlt "youtu.be/".data s with
    | some r =>
      rw [h2] at h
      obtain rfl := Option.some.inj h
      obtain ⟨a, b, c⟩ := tryAlt_sound h2
      exact ⟨a, b, _, by simp [recognizedPrefixes], c⟩
    | none =>
      rw [h2] at h
      obtain ⟨a, b, c⟩ := tryAlt_sound h
      exact ⟨a, b, _, by simp [recognizedPrefixes], c⟩

/-- `re.search` only reports matches of `f` on a suffix of the input
(the leftmost one, though soundness does not need that). -/
theorem scanFind_sound {f : Text → Option Text} {url v : Text}
    (h : scanFind f url = some v) : ∃ s, s <:+ url ∧ f s = some v := by
  induction url with
  | nil => exact ⟨[], List.suffix_refl [], h⟩
  | cons c t ih =>
    simp only [scanFind] at h
    cases hf : f (c :: t) with
    | some r =>
      rw [hf] at h
      exact ⟨c :: t, List.suffix_refl _, hf.trans h⟩
    | none =>
      rw [hf] at h
      obtain ⟨s, hs, hfs⟩ := ih h
      exact ⟨s, hs.trans (List.suffix_cons c t), hfs⟩

theorem vEqAt_sound {s v : Text} (h : vEqAt s = some v) :
    v.length = 11 ∧ v.all vidChar = true ∧ ('v' :: '=' :: v) <+: s := by
  by_cases hc : s.take 2 = ['v', '=']
  · unfold vEqAt at h
    rw [if_pos hc] at h
    obtain ⟨a, b, c⟩ := take11_sound h
    refine ⟨a, b, ?_⟩
    have hs : s = 'v' :: '=' :: s.drop 2 := by
      conv_lhs => rw [← List.take_append_drop 2 s]
      rw [hc]
      rfl
    obtain ⟨u, hu⟩ := c
    exact ⟨u, by rw [hs]; simp [List.cons_append, hu]⟩
  · unfold vEqAt at h
    rw [if_neg hc] at h
    exact absurd h (by simp)

theorem greedyVEq_sound {s v : Text} (h : greedyVEq s = some v) :
    v.length = 11 ∧ v.all vidChar = true ∧ ('v' :: '=' :: v) <:+: s := by
  induction s with
  | nil => exact absurd h (by simp [greedyVEq])
  | cons c t ih =>
    simp only [greedyVEq] at h
    cases hg : greedyVEq t with
    | some r =>
      rw [hg] at h
      obtain rfl := Option.some.inj h
      obtain ⟨a, b, c2⟩ := ih hg
      exact ⟨a, b, List.infix_cons c2⟩
    | none =>
      rw [hg] at h
      obtain ⟨a, b, c2⟩ := vEqAt_sound h
      exact ⟨a, b, c2.isInfix⟩

/-- Any id the second pattern yields sits right after a `v=` occurring in
the segment the pattern scanned. -/
theorem tryP2At_sound {s v : Text} (h : tryP2At s = some v) :
    v.length = 11 ∧ v.all vidChar = true ∧ ('v' :: '=' :: v) <:+: s := by
  by_cases hp : ("youtube.com/watch?".data).isPrefixOf s = true
  · unfold tryP2At at h
    rw [if_pos hp] at h
    obtain ⟨a, b, c⟩ := greedyVEq_sound h
    refine ⟨a, b, ?_⟩
    have h1 : ((s.drop 18).takeWhile (fun c => c != '\n')) <+: s.drop 18 :=
      List.takeWhile_prefix _
    have h2 : s.drop 18 <:+ s := List.drop_suffix 18 s
    exact c.trans (h1.isInfix.trans h2.isInfix)
  · unfold tryP2At at h
    rw [if_neg hp] at h
    exact absurd h (by simp)

/-- C9: `extract_video_id` either returns an 11-character id made of
letters, digits, underscore and hyphen that occurs in the input right
after a recognized YouTube URL fragment, or fails with exactly
`ValueError("Invalid YouTube URL format")`; being a total function of the
embedding, it has no other outcome. -/
theorem C9_extract_video_id_shape (url : Text) :
    (∃ v, extract_video_id url = .ok v ∧ v.length = 11 ∧ v.all vidChar = true
        ∧ ∃ pre, pre ∈ recognizedPrefixes ∧ (pre ++ v) <:+: url)
    ∨ extract_video_id url = .error "Invalid YouTube URL format".data := by
  cases h1 : scanFind tryP1At url with
  | some v =>
    left
    refine ⟨v, by unfold extract_video_id; rw [h1], ?_⟩
    obtain ⟨s, hs, hf⟩ := scanFind_sound h1
    obtain ⟨a, b, pre, hpre, hp⟩ := tryP1At_sound hf
    exact ⟨a, b, pre, hpre, hp.isInfix.trans hs.isInfix⟩
  | none =>
    cases h2 : scanFind tryP2At url with
    | some v =>
      left
      refine ⟨v, by unfold extract_video_id; rw [h1, h2], ?_⟩
      obtain ⟨s, hs, hf⟩ := scanFind_sound h2
      obtain ⟨a, b, hinf⟩ := tryP2At_sound hf
      refine ⟨a, b, "v=".data, by simp [recognizedPrefixes], ?_⟩
      have he : "v=".data ++ v = 'v' :: '=' :: v := rfl
      rw [he]
      exact hinf.trans hs.isInfix
    | none =>
      right
      unfold extract_video_id
      rw [h1, h2]

/-- C1 counterexample: starting from a READY PDF corpus of 2 chunks, a
re-ingest whose embedding step fails before any chunk is embedded leaves
the global pointing at the new, empty database: the prior READY index is
gone, and the status endpoint still reports the corpus as uploaded but
with chunk count 0 instead of the prior 2. -/
theorem C1_counterexample :
    (upload_pdf stReady (some "sk-live".data) true (.ok ["new doc".data]) boFail0).1
      = .error ⟨500, "Error processing PDF: embedding failed".data⟩
    ∧ (upload_pdf stReady (some "sk-live".data) true (.ok ["new doc".data]) boFail0).2.vector_db
      = some ⟨[]⟩
    ∧ pdf_status stReady = (true, 2)
    ∧ pdf_status (upload_pdf stReady (some "sk-live".data) true
        (.ok ["new doc".data]) boFail0).2 = (true, 0) :=
  ⟨rfl, rfl, rfl, rfl⟩

/-- C1 amended: a failure BEFORE the index swap (wrong filename, missing
API key, loader failure, empty document list) leaves the session's prior
index untouched; but when chunk embedding fails partway through a
(re-)ingest, the handler has already repointed the global at the fresh
database, so the session ends up holding the partially built new index
(the `j` chunks embedded before the failure) instead of the prior READY
one — on both the PDF and the YouTube ingestion paths. -/
theorem C1_amended (st : AppState) (apiKey : Option Text) (docs : List Text)
    (bo : BuildOutcome) (e : Text) (j : ℕ) :
    ((upload_pdf st apiKey false (.ok docs) bo).2.vector_db = st.vector_db)
    ∧ (apiKeyBad apiKey = true → (upload_pdf st apiKey true (.ok docs) bo).2 = st)
    ∧ ((upload_pdf st apiKey true (.error e) bo).2.vector_db = st.vector_db)
    ∧ ((upload_pdf st apiKey true (.ok []) bo).2.vector_db = st.vector_db)
    ∧ (apiKeyBad apiKey = false → docs ≠ [] → bo.failAt = some j →
        (upload_pdf st apiKey true (.ok docs) bo).1
          = .error ⟨500, "Error processing PDF: embedding failed".data⟩
        ∧ (upload_pdf st apiKey true (.ok docs) bo).2.vector_db
          = some ⟨((split_texts 1000 200 docs).take j).map (fun c => (c, bo.embed c))⟩)
    ∧ (∀ (url t : Text) (meta : VideoInfo) (sr : Except Text Text),
        apiKeyBad apiKey = false → (∃ vid, extract_video_id url = .ok vid) →
        t.all (fun c => c.isWhitespace) = false → bo.failAt = some j →
        (process_youtube st apiKey url (.ok t) meta bo sr).2.youtube_vector_db
          = some ⟨((split_texts 1000 200 [t]).take j).map (fun c => (c, bo.embed c))⟩) := by
  refine ⟨rfl, ?_, ?_, ?_, ?_, ?_⟩
  · intro hk
    simp [upload_pdf, hk]
  · cases hk : apiKeyBad apiKey <;> simp [upload_pdf, hk]
  · cases hk : apiKeyBad apiKey <;> simp [upload_pdf, hk]
  · intro hk hd hb
    rcases docs with _ | ⟨d, ds⟩
    · exact absurd rfl hd
    · simp [upload_pdf, hk, hb]
  · intro url t meta sr hk hu hws hb
    obtain ⟨vid, hvid⟩ := hu
    simp [process_youtube, hk, hvid, hws, hb]

/-- C1 amended witness: every hypothesis discharged at concrete inputs
(embedding fails before the first chunk, so `j = 0` chunks survive). -/
theorem C1_amended_witness :
    ((upload_pdf stReady (some "sk-live".data) true (.ok ["new doc".data]) boFail0).1
      = .error ⟨500, "Error processing PDF: embedding failed".data⟩
    ∧ (upload_pdf stReady (some "sk-live".data) true (.ok ["new doc".data]) boFail0).2.vector_db
      = some ⟨((split_texts 1000 200 ["new doc".data]).take 0).map
          (fun c => (c, boFail0.embed c))⟩)
    ∧ (process_youtube stReady (some "sk-live".data) "https://youtu.be/dQw4w9WgXcQ".data
        (.ok "some transcript".data) infoY boFail0 (.ok "s".data)).2.youtube_vector_db
      = some ⟨((split_texts 1000 200 ["some transcript".data]).take 0).map
          (fun c => (c, boFail0.embed c))⟩ := by
  obtain ⟨-, -, -, -, h5, h6⟩ :=
    C1_amended stReady (some "sk-live".data) ["new doc".data] boFail0 "x".data 0
  exact ⟨h5 rfl (by decide) rfl,
    h6 "https://youtu.be/dQw4w9WgXcQ".data "some transcript".data infoY (.ok "s".data)
      rfl ⟨"dQw4w9WgXcQ".data, by decide⟩ (by decide) rfl⟩

/-- C2 counterexample: with the video corpus READY, `youtube_chat`
answers; after `reset_pdf` the very same query is rejected with the 500
"Chat model not initialized", because `reset_pdf` cleared the shared
`chat_model` global — resetting the PDF corpus does NOT leave the video
corpus able to answer as before. -/
theorem C2_counterexample :
    youtube_chat stVideo (some "sk-live".data) "q".data (fun _ => [1])
      = (.ok (["video chunk".data], "Title".data, "Author".data), [.embed, .generate])
    ∧ youtube_chat (reset_pdf stVideo).2 (some "sk-live".data) "q".data (fun _ => [1])
      = (.error ⟨500, "Chat model not initialized".data⟩, []) :=
  ⟨by decide, by decide⟩

/-- C2 amended: the two vector databases and the video metadata are
independent — `reset_youtube` never changes the result of `pdf_chat`, and
`reset_pdf` leaves `youtube_vector_db` and `youtube_video_info`
untouched — but `chat_model` is shared mutable state coupling the two
corpus kinds: `reset_pdf` clears it, after which a READY video corpus
answers every query with the 500 "Chat model not initialized" until a new
ingestion. -/
theorem C2_amended (st : AppState) (apiKey : Option Text) (msg : Text)
    (embed : Text → Emb) :
    pdf_chat (reset_youtube st).2 apiKey msg embed = pdf_chat st apiKey msg embed
    ∧ ((reset_pdf st).2).youtube_vector_db = st.youtube_vector_db
    ∧ ((reset_pdf st).2).youtube_video_info = st.youtube_video_info
    ∧ (st.youtube_vector_db ≠ none →
        youtube_chat (reset_pdf st).2 apiKey msg embed
          = (.error ⟨500, "Chat model not initialized".data⟩, [])) := by
  refine ⟨?_, rfl, rfl, ?_⟩
  · cases h : st.vector_db <;> simp [pdf_chat, reset_youtube, h]
  · intro h
    cases hdb : st.youtube_vector_db with
    | none => exact absurd hdb h
    | some db => simp [youtube_chat, reset_pdf, hdb]

/-- C2 amended witness at the READY-video state. -/
theorem C2_amended_witness :
    pdf_chat (reset_youtube stVideo).2 (some "sk-live".data) "q".data (fun _ => [1])
      = pdf_chat stVideo (some "sk-live".data) "q".data (fun _ => [1])
    ∧ youtube_chat (reset_pdf stVideo).2 (some "sk-live".data) "q".data (fun _ => [1])
      = (.error ⟨500, "Chat model not initialized".data⟩, []) :=
  ⟨(C2_amended stVideo (some "sk-live".data) "q".data (fun _ => [1])).1,
   (C2_amended stVideo (some "sk-live".data) "q".data (fun _ => [1])).2.2.2 (by decide)⟩

/-- C6 counterexample: a transcript failure with detail "no captions
available" is surfaced as a 500 whose detail is the NameError of the
missing demo-transcript helper; the source-failure detail does not occur
anywhere in the surfaced error (no index is produced, as the claim also
says). -/
theorem C6_counterexample :
    (process_youtube stEmpty (some "sk-live".data) "https://youtu.be/dQw4w9WgXcQ".data
        (.error "no captions available".data) infoY boOk (.ok "s".data)).1
      = .error ⟨500, nameErrorDetail⟩
    ∧ ¬ ("no captions available".data <:+: nameErrorDetail)
    ∧ (process_youtube stEmpty (some "sk-live".data) "https://youtu.be/dQw4w9WgXcQ".data
        (.error "no captions available".data) infoY boOk (.ok "s".data)).2.youtube_vector_db
      = none :=
  ⟨by decide, by decide, by decide⟩

/-- C6 amended: when transcript acquisition fails, `process_youtube`
always surfaces an ingestion error and leaves the session exactly as it
was apart from the freshly initialised chat model — no partial index, no
metadata write, and no synthetic text is ever indexed (the demo-content
substitution the code attempts cannot run: its helper is undefined).  The
error, however, carries the NameError of that missing helper
(`get_demo_transcript_for_video`), not the source-failure detail. -/
theorem C6_amended (st : AppState) (apiKey : Option Text) (url d : Text)
    (meta : VideoInfo) (bo : BuildOutcome) (sr : Except Text Text)
    (hk : apiKeyBad apiKey = false) (hu : ∃ vid, extract_video_id url = .ok vid) :
    process_youtube st apiKey url (.error d) meta bo sr
      = (.error ⟨500, nameErrorDetail⟩, { st with chat_model := true }) := by
  obtain ⟨vid, hvid⟩ := hu
  simp [process_youtube, hk, hvid]

/-- C6 amended witness at a concrete valid URL and failure detail. -/
theorem C6_amended_witness :
    process_youtube stEmpty (some "sk-live".data) "https://youtu.be/dQw4w9WgXcQ".data
        (.error "boom".data) infoY boOk (.ok "s".data)
      = (.error ⟨500, nameErrorDetail⟩, { stEmpty with chat_model := true }) :=
  C6_amended stEmpty (some "sk-live".data) "https://youtu.be/dQw4w9WgXcQ".data "boom".data
    infoY boOk (.ok "s".data) (by decide) ⟨"dQw4w9WgXcQ".data, by decide⟩

end RagSpec
